import Mathlib

/-!
Verification of the note-taking front end: a shallow embedding of the
`NoteList` component, the note hooks module (`useNote`, `useCreateNote`,
`useNoteContent`, `useDeleteNote`, `useUpdateNote`, `useMakeNotePrivate`,
`useUpdateNotePermissions`, `useDuplicateNote`), the lodash trailing-edge
debounce wrapper used by `useUpdateNote`, and the `ImageUploadModal`
file-validation handlers.  Each definition is translated directly from the
corresponding TypeScript source.
-/

/-- Access scope of a note, mirroring the `access` field values compared in
`NoteList` (`'WORKSPACE' | 'SHARED' | 'PRIVATE'`). -/
inductive NoteAccess where
  | WORKSPACE
  | SHARED
  | PRIVATE
deriving DecidableEq

/-- The `type` prop of `NoteList`: `'workspace' | 'private'`.  (`private` is a
Lean keyword, so the second constructor is named `privateNotes`.) -/
inductive NoteListType where
  | workspace
  | privateNotes
deriving DecidableEq

/-- A note as consumed by `NoteList`: the fields the component reads.
`updatedDate` models `new Date(note.updatedDate).getTime()`, i.e. the
timestamp in milliseconds obtained from the serialized date. -/
structure Note where
  id : Nat
  title : String
  access : NoteAccess
  updatedDate : Int
deriving DecidableEq

/-- The filter predicate of `filteredAndSortedNotes`: with type `'workspace'`
keep `access === 'WORKSPACE' || access === 'SHARED'`, otherwise keep
`access === 'PRIVATE'`. -/
def notePassesFilter (ty : NoteListType) (n : Note) : Bool :=
  match ty with
  | .workspace => n.access = NoteAccess.WORKSPACE || n.access = NoteAccess.SHARED
  | .privateNotes => n.access = NoteAccess.PRIVATE

/-- The comparator of `filteredAndSortedNotes` as a Boolean "a may precede b"
relation: the JS comparator `(a, b) => bTime - aTime` sorts descending by
`updatedDate`, so `a` may precede `b` exactly when `b.updatedDate ≤
a.updatedDate`.  (ES2019 `Array.prototype.sort` is a stable sort; `mergeSort`
is the stable sort in Lean.) -/
def newestFirst (a b : Note) : Bool :=
  b.updatedDate ≤ a.updatedDate

/-- `filteredAndSortedNotes` from `NoteList`: filter by access scope, then
sort newest first. -/
def filteredAndSortedNotes (notes : List Note) (ty : NoteListType) : List Note :=
  (notes.filter (notePassesFilter ty)).mergeSort newestFirst

/-- The three possible renderings of `NoteList`: the loading skeleton, the
empty-state message (with its text), or the list of note items. -/
inductive NoteListView where
  | skeleton
  | emptyMsg (text : String)
  | items (notes : List Note)
deriving DecidableEq

/-- The empty-state text: `No {type === 'workspace' ? 'workspace' : 'private'} notes`. -/
def emptyStateText (ty : NoteListType) : String :=
  match ty with
  | .workspace => "No workspace notes"
  | .privateNotes => "No private notes"

/-- The render of `NoteList`: skeleton when `isLoading || notes.length === 0`,
else the empty-state message when `filteredAndSortedNotes.length === 0`,
else the sorted note items. -/
def noteListRender (notes : List Note) (ty : NoteListType) (isLoading : Bool) : NoteListView :=
  if isLoading || notes.length = 0 then
    .skeleton
  else if (filteredAndSortedNotes notes ty).length = 0 then
    .emptyMsg (emptyStateText ty)
  else
    .items (filteredAndSortedNotes notes ty)

/-- The editor state as read by the debounced flush: `getHTML()`, `getText()`,
`JSON.stringify(getJSON())`, and the result of `getDocumentTitleFromEditor`
(a helper outside this module, which may return a string or nothing; the
flush treats it abstractly). -/
structure EditorModel where
  html : String
  text : String
  jsonStr : String
  docTitle : Option String
deriving DecidableEq

/-- `getDocumentTitleFromEditor(editor) || ''`: the extracted title, defaulted
to the empty string when the helper returns nothing (JS `||` also maps an
empty-string result to `''`, the same value). -/
def extractedTitle (e : EditorModel) : String :=
  match e.docTitle with
  | none => ""
  | some t => t

/-- A call to a `NoteService` method, with the arguments the hooks pass. -/
inductive ServiceCall where
  | updateNoteTitle (noteId : String) (title : String)
  | updateNoteContent (note : String) (fullSrc : Option String) (plainText : Option String)
      (fullJson : Option String)
  | createNote (title : String) (grouping : NoteAccess) (organizationSlug : String)
  | getNote (noteId : String)
  | deleteNote (noteId : String)
  | makePrivate (noteId : String)
  | updateNotePermissions (noteId : String) (organizationId : String) (admin : Bool)
deriving DecidableEq

/-- The kind of exception a service call rejects with: a `NoteError` (whose
message the hooks reuse) or any other error. -/
inductive ErrKind where
  | noteError (msg : String)
  | otherError
deriving DecidableEq

/-- `err instanceof NoteError ? err.message : dflt` — the message wrapped into
the `Error` the hooks store. -/
def wrapMsg (dflt : String) : ErrKind → String
  | .noteError m => m
  | .otherError => dflt

/-- The IDs in the hooks (`ID` is `string | number`); modelled as strings,
with JS truthiness `noteId` ⟺ the string is nonempty. -/
def idTruthy (noteId : String) : Bool :=
  noteId ≠ ""

/-- Result of one invocation of the debounced flush body of `useUpdateNote`:
the service calls it issued, the `titleRef` value after it ran, and the
error it stored (if the awaited `Promise.all` rejected). -/
structure FlushResult where
  calls : List ServiceCall
  titleRef : String
  error : Option String
deriving DecidableEq

/-- One invocation of the debounced flush body (`debouncedUpdate`), translated
from the source:
* if `!editor || !noteId`, log and return — no state change, no calls;
* otherwise extract title/html/text/json, update `titleRef` and enqueue
  `updateNoteTitle` only when the title changed, always enqueue
  `updateNoteContent`, and on rejection of the awaited `Promise.all`
  (modelled by `fail`) store the wrapped error message without rethrowing.
`titleRef.current = newTitle` executes before the await, so the new
`titleRef` does not depend on `fail`. -/
def debouncedFlush (titleRef : String) (ed : Option EditorModel) (noteId : String)
    (fail : Option ErrKind) : FlushResult :=
  match ed with
  | none => { calls := [], titleRef := titleRef, error := none }
  | some e =>
    if idTruthy noteId then
      let newTitle := extractedTitle e
      let titleCalls : List ServiceCall :=
        if newTitle ≠ titleRef then [.updateNoteTitle noteId newTitle] else []
      let contentCall : ServiceCall :=
        .updateNoteContent noteId (some e.html) (some e.text) (some e.jsonStr)
      { calls := titleCalls ++ [contentCall]
        titleRef := newTitle
        error := fail.map (wrapMsg "Failed to update note") }
    else
      { calls := [], titleRef := titleRef, error := none }

/-- The arguments captured by one call to the debounced function: the editor
passed to `updateNote` (non-null there, hence not an `Option`) and the
`noteId` from the hook closure. -/
structure FlushArgs where
  editor : EditorModel
  noteId : String
deriving DecidableEq

/-- An external event on the debounce wrapper, at a time (ms): a call to
`debouncedUpdate.current(editor, noteId)` via `updateNote`, or
`debouncedUpdate.current.cancel()` from the unmount cleanup. -/
inductive DebEvent where
  | call (t : Nat) (args : FlushArgs)
  | cancel (t : Nat)
deriving DecidableEq

/-- The time an event occurs. -/
def DebEvent.time : DebEvent → Nat
  | .call t _ => t
  | .cancel t => t

/-- Effect of an event on the pending timer of a lodash trailing-edge
debounce: a call (re)schedules the trailing invocation `wait` ms later with
its own arguments; `cancel` clears the timer. -/
def applyDebEvent (wait : Nat) (_pending : Option (Nat × FlushArgs)) :
    DebEvent → Option (Nat × FlushArgs)
  | .call t args => some (t + wait, args)
  | .cancel _ => none

/-- Trailing-edge invocations ("fires") of a lodash debounce over a timeline
of events, given the currently pending timer.  Before an event at time `t`
is handled, a pending timer due at `f ≤ t` has already fired; a timer still
pending after the last event eventually fires.  Each fire carries its due
time and the arguments of the latest call. -/
def debounceFires (wait : Nat) (pending : Option (Nat × FlushArgs)) :
    List DebEvent → List (Nat × FlushArgs)
  | [] => pending.toList
  | e :: rest =>
    match pending with
    | some (f, args) =>
      if f ≤ e.time then
        (f, args) :: debounceFires wait (applyDebEvent wait none e) rest
      else
        debounceFires wait (applyDebEvent wait (some (f, args)) e) rest
    | none => debounceFires wait (applyDebEvent wait none e) rest

/-- Run the debounced flush body once per fire, threading `titleRef` and
asking the oracle `fail` whether the awaited requests of the n-th fire
reject.  Returns every issued service call tagged with the time of the fire
that issued it. -/
def timedFlushCalls (titleRef : String) (idx : Nat) (fail : Nat → Option ErrKind) :
    List (Nat × FlushArgs) → List (Nat × ServiceCall)
  | [] => []
  | (f, args) :: rest =>
    let r := debouncedFlush titleRef (some args.editor) args.noteId (fail idx)
    r.calls.map (fun c => (f, c)) ++ timedFlushCalls r.titleRef (idx + 1) (fail) rest

/-- An observable step of a hook action: React state updates (`setIsLoading`,
`setError(null)` / `setError(err)`, storing a service response), a service
call being issued, or the wrapped error being rethrown to the caller. -/
inductive HookEff where
  | setLoading (b : Bool)
  | clearError
  | storeResult
  | call (c : ServiceCall)
  | setError (msg : String)
  | rethrow (msg : String)
deriving DecidableEq

/-- The error tail shared by the hooks that rethrow: store the wrapped error,
run the `finally` (clear loading), then let the thrown error propagate. -/
def throwTail (dflt : String) (k : ErrKind) : List HookEff :=
  [.setError (wrapMsg dflt k), .setLoading false, .rethrow (wrapMsg dflt k)]

/-- Effects of `createNote` from `useCreateNote`: loading/error bookkeeping
around a single `NoteService.createNote` call, storing the response on
success, wrapping and rethrowing on failure. -/
def createNoteEffects (title : String) (grouping : NoteAccess) (organizationSlug : String)
    (fail : Option ErrKind) : List HookEff :=
  [.setLoading true, .clearError, .call (.createNote title grouping organizationSlug)] ++
    match fail with
    | none => [.storeResult, .setLoading false]
    | some k => throwTail "Failed to create note" k

/-- Effects of `updateNoteContent` from `useNoteContent`. -/
def updateNoteContentEffects (note : String) (fullSrc plainText fullJson : Option String)
    (fail : Option ErrKind) : List HookEff :=
  [.setLoading true, .clearError, .call (.updateNoteContent note fullSrc plainText fullJson)] ++
    match fail with
    | none => [.storeResult, .setLoading false]
    | some k => throwTail "Failed to update note content" k

/-- Effects of `deleteNote` from `useDeleteNote` (no stored state on success;
the response is returned to the caller). -/
def deleteNoteEffects (noteId : String) (fail : Option ErrKind) : List HookEff :=
  [.setLoading true, .clearError, .call (.deleteNote noteId)] ++
    match fail with
    | none => [.setLoading false]
    | some k => throwTail "Failed to delete note" k

/-- Effects of `makeNotePrivate` from `useMakeNotePrivate`. -/
def makeNotePrivateEffects (noteId : String) (fail : Option ErrKind) : List HookEff :=
  [.setLoading true, .clearError, .call (.makePrivate noteId)] ++
    match fail with
    | none => [.setLoading false]
    | some k => throwTail "Failed to make note private" k

/-- Effects of `updatePermissions` from `useUpdateNotePermissions`; `admin`
models whether the optional `accessType: 'ADMIN'` was passed. -/
def updatePermissionsEffects (noteId organizationId : String) (admin : Bool)
    (fail : Option ErrKind) : List HookEff :=
  [.setLoading true, .clearError, .call (.updateNotePermissions noteId organizationId admin)] ++
    match fail with
    | none => [.setLoading false]
    | some k => throwTail "Failed to update note permissions" k

/-- The shape of a fetched `NoteWithContent` as read by `duplicateNote`:
title, access scope, and the three optional content fields. -/
structure NoteWithContentM where
  title : String
  access : NoteAccess
  content : Option String
  plainText : Option String
  contentJson : Option String
deriving DecidableEq

/-- JS truthiness of an optional string field: present and nonempty. -/
def strTruthy (o : Option String) : Bool :=
  match o with
  | some s => s ≠ ""
  | none => false

/-- Effects of `duplicateNote` from `useDuplicateNote`: fetch the original,
create a copy titled `title + " (Copy)"` with the same access, then copy the
content only when `originalNote.content || originalNote.contentJson` is
truthy.  `original` and `newNoteId` are the remote responses of the first
two steps; `failAt` names the first step whose awaited call rejects (later
steps then never run). -/
def duplicateNoteEffects (noteId organizationSlug : String) (original : NoteWithContentM)
    (newNoteId : String) (failAt : Option (Nat × ErrKind)) : List HookEff :=
  [.setLoading true, .clearError, .call (.getNote noteId)] ++
    match failAt with
    | some (0, k) => throwTail "Failed to duplicate note" k
    | _ =>
      [.call (.createNote (original.title ++ " (Copy)") original.access organizationSlug)] ++
        match failAt with
        | some (1, k) => throwTail "Failed to duplicate note" k
        | _ =>
          if strTruthy original.content || strTruthy original.contentJson then
            [.call (.updateNoteContent newNoteId original.content original.plainText
                original.contentJson)] ++
              match failAt with
              | some (2, k) => throwTail "Failed to duplicate note" k
              | _ => [.setLoading false]
          else
            [.setLoading false]

/-- Effects of one invocation of the debounced flush body of `useUpdateNote`:
the guard path does nothing observable; the normal path does the same
loading/error bookkeeping as the other hooks but, on failure, only stores
the wrapped error (`console.error`) — it does not rethrow. -/
def debouncedFlushEffects (titleRef : String) (ed : Option EditorModel) (noteId : String)
    (fail : Option ErrKind) : List HookEff :=
  match ed with
  | none => []
  | some _ =>
    if idTruthy noteId then
      [.setLoading true, .clearError] ++
        (debouncedFlush titleRef ed noteId fail).calls.map HookEff.call ++
        (match fail with
          | none => []
          | some k => [.setError (wrapMsg "Failed to update note" k)]) ++
        [.setLoading false]
    else []

/-- The shape a hook exposes, transcribed from its declared return type in the
note hooks module: the fields of the state record (first component of the
returned pair) and the number of action functions returned alongside it. -/
structure HookSig where
  name : String
  stateFields : List String
  actionCount : Nat
deriving DecidableEq

/-- The eight hooks of the note hooks module with their declared return
shapes (`UseNoteReturn`, `UseCreateNoteReturn`, ..., `UseDuplicateNoteReturn`). -/
def noteHooksModule : List HookSig :=
  [ { name := "useNote", stateFields := ["note", "isLoading", "error"], actionCount := 1 },
    { name := "useCreateNote", stateFields := ["note", "isLoading", "error"], actionCount := 1 },
    { name := "useNoteContent", stateFields := ["note", "isLoading", "error"], actionCount := 1 },
    { name := "useDeleteNote", stateFields := ["isLoading", "error"], actionCount := 1 },
    { name := "useUpdateNote", stateFields := ["isLoading", "error"], actionCount := 1 },
    { name := "useMakeNotePrivate", stateFields := ["isLoading", "error"], actionCount := 1 },
    { name := "useUpdateNotePermissions", stateFields := ["isLoading", "error"], actionCount := 1 },
    { name := "useDuplicateNote", stateFields := ["isLoading", "error"], actionCount := 1 } ]

/-- A fragment of the JS object heap as touched by `NoteList`: array objects
(holding references into `noteObjs`) and the note objects themselves.
References are positions; allocation appends. -/
structure JSHeap where
  arrays : List (List Nat)
  noteObjs : List Note
deriving DecidableEq

/-- Note object behind reference `i`, with a dummy for a dangling reference. -/
def JSHeap.noteAt (h : JSHeap) (i : Nat) : Note :=
  (h.noteObjs.get? i).getD { id := 0, title := "", access := .PRIVATE, updatedDate := 0 }

/-- The computation of `filteredAndSortedNotes` on the heap: `notes.filter`
allocates a fresh array of the surviving references, and `.sort` reorders
that fresh array in place — the resulting heap keeps every pre-existing
object and gains one array.  Returns the new heap and the reference to the
freshly built array. -/
def noteListComputeStep (h : JSHeap) (r : Nat) (ty : NoteListType) : JSHeap × Nat :=
  let orig := (h.arrays.get? r).getD []
  let filtered := orig.filter (fun i => notePassesFilter ty (h.noteAt i))
  let sorted := filtered.mergeSort (fun i j => newestFirst (h.noteAt i) (h.noteAt j))
  ({ arrays := h.arrays ++ [sorted], noteObjs := h.noteObjs }, h.arrays.length)

/-- `setNote(noteData)` in the fetch of `useNote` (and the other stores of
service responses): the response object is stored as received — it is added
to the known objects and no existing object is written. -/
def hookStoreResponse (h : JSHeap) (resp : Note) : JSHeap × Nat :=
  ({ arrays := h.arrays, noteObjs := h.noteObjs ++ [resp] }, h.noteObjs.length)

/-- A `File` as inspected by `ImageUploadModal`: its name and MIME type. -/
structure UploadFile where
  name : String
  type : String
deriving DecidableEq

/-- `file.type.startsWith('image/')`, expressed over the character sequence
of the MIME type (the same prefix test, in an executable form). -/
def isImageFile (f : UploadFile) : Bool :=
  "image/".data.isPrefixOf f.type.data

/-- The component state of `ImageUploadModal` touched by the two handlers. -/
structure ModalState where
  isDragging : Bool
  selectedFile : Option UploadFile
  validationError : Option String
deriving DecidableEq

/-- `handleDrop`: clear the dragging flag, take `e.dataTransfer.files[0]`
(which may not exist), and accept it only when it exists and its MIME type
starts with `image/`; otherwise set the validation error and leave the
selected file as it was. -/
def handleDrop (s : ModalState) (files : List UploadFile) : ModalState :=
  let s1 := { s with isDragging := false }
  match files.head? with
  | some f =>
    if isImageFile f then
      { s1 with selectedFile := some f, validationError := none }
    else
      { s1 with validationError := some "Please select an image file" }
  | none => { s1 with validationError := some "Please select an image file" }

/-- `handleFileSelect`: like `handleDrop` but reading `e.target.files?.[0]`
(the file list itself may be absent) and without touching the drag flag. -/
def handleFileSelect (s : ModalState) (files : Option (List UploadFile)) : ModalState :=
  match files.bind List.head? with
  | some f =>
    if isImageFile f then
      { s with selectedFile := some f, validationError := none }
    else
      { s with validationError := some "Please select an image file" }
  | none => { s with validationError := some "Please select an image file" }

/-- Claim C5: every access scope is either workspace-shared (`WORKSPACE` or
`SHARED`) or `PRIVATE` and never both; `filteredAndSortedNotes` keeps
exactly the notes whose scope matches the `type` prop (membership
characterization plus the meaning of the filter for both prop values), and
its output is ordered by `updatedDate`, newest first. -/
theorem c5_noteList_partition :
    (∀ a : NoteAccess,
      ((a = .WORKSPACE ∨ a = .SHARED) ∨ a = .PRIVATE) ∧
        ¬((a = .WORKSPACE ∨ a = .SHARED) ∧ a = .PRIVATE)) ∧
    (∀ (n : Note),
      (notePassesFilter .workspace n = true ↔ (n.access = .WORKSPACE ∨ n.access = .SHARED)) ∧
      (notePassesFilter .privateNotes n = true ↔ n.access = .PRIVATE)) ∧
    ∀ (notes : List Note) (ty : NoteListType),
      (∀ n : Note,
        n ∈ filteredAndSortedNotes notes ty ↔ n ∈ notes ∧ notePassesFilter ty n = true) ∧
      List.Sorted (fun a b : Note => b.updatedDate ≤ a.updatedDate)
        (filteredAndSortedNotes notes ty) := by
  refine ⟨?_, ?_, ?_⟩
  · intro a
    cases a <;> simp
  · intro n
    constructor <;> simp [notePassesFilter]
  · intro notes ty
    constructor
    · intro n
      rw [filteredAndSortedNotes,
        (List.mergeSort_perm (notes.filter (notePassesFilter ty)) newestFirst).mem_iff,
        List.mem_filter]
    · have htrans : ∀ a b c : Note,
          newestFirst a b = true → newestFirst b c = true → newestFirst a c = true := by
        intro a b c hab hbc
        simp only [newestFirst, decide_eq_true_eq] at *
        omega
      have htotal : ∀ a b : Note, (newestFirst a b || newestFirst b a) = true := by
        intro a b
        simp only [newestFirst, Bool.or_eq_true, decide_eq_true_eq]
        omega
      have hp := List.sorted_mergeSort htrans htotal (notes.filter (notePassesFilter ty))
      refine List.Pairwise.imp ?_ hp
      intro a b hab
      simpa [newestFirst] using hab

/-- Claim C9: `NoteList` renders the skeleton for an empty `notes` array for
every value of `isLoading` (in particular `false`), and the empty-state
message appears only when `notes` is nonempty, loading is off, and no note
matches the access filter — and then its text is the one for the `type`
prop. -/
theorem c9_skeleton_and_empty_state :
    (∀ (ty : NoteListType) (isLoading : Bool), noteListRender [] ty isLoading = .skeleton) ∧
    ∀ (notes : List Note) (ty : NoteListType) (isLoading : Bool) (msg : String),
      noteListRender notes ty isLoading = .emptyMsg msg →
        notes ≠ [] ∧ isLoading = false ∧ filteredAndSortedNotes notes ty = [] ∧
          msg = emptyStateText ty := by
  constructor
  · intro ty isLoading
    simp [noteListRender]
  · intro notes ty isLoading msg h
    rw [noteListRender] at h
    split at h
    · exact absurd h (by simp)
    · split at h
      · rename_i hskel hflt
        simp only [Bool.or_eq_true, decide_eq_true_eq] at hskel
        push_neg at hskel
        refine ⟨by simpa [List.length_eq_zero] using hskel.2, ?_, ?_, ?_⟩
        · cases isLoading
          · rfl
          · exact absurd rfl hskel.1
        · exact List.length_eq_zero.mp hflt
        · cases h
          rfl
      · exact absurd h (by simp)

/-- Claim C9 witness: the empty-list / not-loading instance of the first
conjunct. -/
theorem c9_witness : noteListRender [] .workspace false = .skeleton :=
  c9_skeleton_and_empty_state.1 .workspace false

/-- Claim C10: in both `handleDrop` and `handleFileSelect`, the dropped/chosen
file becomes the selected file with the validation error cleared exactly
when a first file exists and its MIME type starts with `image/`; otherwise
the previous selection is untouched and the validation error becomes
`Please select an image file`. -/
theorem c10_image_upload_validation :
    ∀ (s : ModalState) (files : List UploadFile) (ofiles : Option (List UploadFile)),
      (files.head?.any isImageFile = true ↔
        (handleDrop s files).selectedFile = files.head? ∧
          (handleDrop s files).validationError = none) ∧
      (files.head?.any isImageFile = false →
        (handleDrop s files).selectedFile = s.selectedFile ∧
          (handleDrop s files).validationError = some "Please select an image file") ∧
      ((ofiles.bind List.head?).any isImageFile = true ↔
        (handleFileSelect s ofiles).selectedFile = ofiles.bind List.head? ∧
          (handleFileSelect s ofiles).validationError = none) ∧
      ((ofiles.bind List.head?).any isImageFile = false →
        (handleFileSelect s ofiles).selectedFile = s.selectedFile ∧
          (handleFileSelect s ofiles).validationError = some "Please select an image file") := by
  intro s files ofiles
  refine ⟨?_, ?_, ?_, ?_⟩
  · rcases hh : files.head? with _ | f
    · simp [handleDrop, hh]
    · by_cases hf : isImageFile f = true
      · simp [handleDrop, hh, hf]
      · simp [handleDrop, hh, hf]
  · rcases hh : files.head? with _ | f
    · intro _
      simp [handleDrop, hh]
    · by_cases hf : isImageFile f = true
      · simp [hh, hf]
      · intro _
        simp [handleDrop, hh, hf]
  · rcases hh : ofiles.bind List.head? with _ | f
    · simp [handleFileSelect, hh]
    · by_cases hf : isImageFile f = true
      · simp [handleFileSelect, hh, hf]
      · simp [handleFileSelect, hh, hf]
  · rcases hh : ofiles.bind List.head? with _ | f
    · intro _
      simp [handleFileSelect, hh]
    · by_cases hf : isImageFile f = true
      · simp [hh, hf]
      · intro _
        simp [handleFileSelect, hh, hf]

/-- Claim C10 witness: a PDF drop onto a state with no selection leaves the
selection empty and sets the validation error. -/
theorem c10_witness :
    (handleDrop { isDragging := true, selectedFile := none, validationError := none }
        [{ name := "a.pdf", type := "application/pdf" }]).selectedFile = none ∧
      (handleDrop { isDragging := true, selectedFile := none, validationError := none }
        [{ name := "a.pdf", type := "application/pdf" }]).validationError =
        some "Please select an image file" :=
  (c10_image_upload_validation { isDragging := true, selectedFile := none, validationError := none }
      [{ name := "a.pdf", type := "application/pdf" }] none).2.1 (by decide)

/-- Claim C6: the note hooks module consists of exactly the eight hooks, and
every one of them returns a `[state, action]` pair whose state record
contains `isLoading` and `error` fields and whose second component is a
single action function. -/
theorem c6_hook_return_shape :
    noteHooksModule.map HookSig.name =
      ["useNote", "useCreateNote", "useNoteContent", "useDeleteNote", "useUpdateNote",
        "useMakeNotePrivate", "useUpdateNotePermissions", "useDuplicateNote"] ∧
    noteHooksModule.all
      (fun h => h.stateFields.contains "isLoading" && h.stateFields.contains "error" &&
        (h.actionCount == 1)) = true := by
  decide

/-- Claim C7: the front end does not mutate entities received from the
service.  The `NoteList` computation leaves every note object and every
pre-existing array untouched (the filter allocates a fresh array, whose
reference is new, and the in-place sort reorders only that fresh array),
and storing a service response in a hook adds the object as received
without writing any existing object. -/
theorem c7_no_entity_mutation :
    ∀ (h : JSHeap) (r : Nat) (ty : NoteListType) (resp : Note),
      (noteListComputeStep h r ty).1.noteObjs = h.noteObjs ∧
      (noteListComputeStep h r ty).1.arrays.take h.arrays.length = h.arrays ∧
      (∀ i : Nat, i < h.arrays.length →
        ((noteListComputeStep h r ty).1.arrays)[i]? = h.arrays[i]?) ∧
      (noteListComputeStep h r ty).2 = h.arrays.length ∧
      (hookStoreResponse h resp).1.arrays = h.arrays ∧
      (hookStoreResponse h resp).1.noteObjs.take h.noteObjs.length = h.noteObjs ∧
      ((hookStoreResponse h resp).1.noteObjs)[(hookStoreResponse h resp).2]? = some resp := by
  intro h r ty resp
  refine ⟨rfl, ?_, ?_, rfl, rfl, ?_, ?_⟩
  · simp only [noteListComputeStep]
    exact List.take_left h.arrays _
  · intro i hi
    simp only [noteListComputeStep]
    exact List.getElem?_append_left hi
  · simp only [hookStoreResponse]
    exact List.take_left h.noteObjs _
  · simp only [hookStoreResponse]
    exact List.getElem?_concat_length h.noteObjs resp

/-- Claim C7 witness: on a one-array, one-note heap the prop array behind
reference `0` is unchanged by the `NoteList` computation. -/
theorem c7_witness :
    ((noteListComputeStep
        { arrays := [[0]],
          noteObjs := [{ id := 1, title := "t", access := .WORKSPACE, updatedDate := 3 }] }
        0 .workspace).1.arrays)[0]? =
      (({ arrays := [[0]],
          noteObjs := [{ id := 1, title := "t", access := .WORKSPACE, updatedDate := 3 }] } :
            JSHeap).arrays)[0]? :=
  (c7_no_entity_mutation
      { arrays := [[0]],
        noteObjs := [{ id := 1, title := "t", access := .WORKSPACE, updatedDate := 3 }] }
      0 .workspace
      { id := 1, title := "t", access := .WORKSPACE, updatedDate := 3 }).2.2.1 0 (by decide)

/-- Claim C1 counterexample: a flush whose `noteId` is falsy (the empty
string, a legal `ID`) takes the guard's early return.  The extracted title
(`"A"`) differs from the recorded title (`""`), yet the flush issues no
`updateNoteTitle` call — and no `updateNoteContent` call either — so the
claim as stated (an unconditional iff plus an unconditional content
update for every flush) is false at this input. -/
theorem c1_counterexample :
    extractedTitle { html := "<p>x</p>", text := "x", jsonStr := "{}", docTitle := some "A" } ≠
      "" ∧
    (debouncedFlush ""
        (some { html := "<p>x</p>", text := "x", jsonStr := "{}", docTitle := some "A" }) ""
        none).calls = [] := by
  decide

/-- Claim C1 (amended): for every flush whose editor is defined and whose
`noteId` is truthy, the flush issues the `updateNoteTitle` call exactly
when the extracted title differs from the recorded one (and issues no
other title update), and always issues `updateNoteContent` with the
editor's HTML, plain text, and serialized JSON — independently of whether
the awaited requests fail. -/
theorem c1_flush_calls (titleRef : String) (e : EditorModel) (noteId : String)
    (fail : Option ErrKind) (hid : idTruthy noteId = true) :
    (ServiceCall.updateNoteTitle noteId (extractedTitle e) ∈
        (debouncedFlush titleRef (some e) noteId fail).calls ↔ extractedTitle e ≠ titleRef) ∧
    ServiceCall.updateNoteContent noteId (some e.html) (some e.text) (some e.jsonStr) ∈
      (debouncedFlush titleRef (some e) noteId fail).calls ∧
    ∀ (nid t : String),
      ServiceCall.updateNoteTitle nid t ∈ (debouncedFlush titleRef (some e) noteId fail).calls →
        nid = noteId ∧ t = extractedTitle e ∧ extractedTitle e ≠ titleRef := by
  by_cases hne : extractedTitle e = titleRef
  · refine ⟨?_, ?_, ?_⟩
    · simp [debouncedFlush, hid, hne]
    · simp [debouncedFlush, hid, hne]
    · intro nid t hmem
      rw [debouncedFlush] at hmem
      simp [hid, hne] at hmem
  · refine ⟨?_, ?_, ?_⟩
    · simp [debouncedFlush, hid, hne]
    · simp [debouncedFlush, hid, hne]
    · intro nid t hmem
      rw [debouncedFlush] at hmem
      simp only [hid, if_true, hne, ne_eq, not_false_iff, if_pos, List.mem_append,
        List.mem_singleton, List.mem_cons, List.not_mem_nil, or_false] at hmem
      rcases hmem with hmem | hmem
      · cases hmem
        exact ⟨rfl, rfl, hne⟩
      · cases hmem

/-- Claim C1 witness: concrete flush with a truthy `noteId` and a changed
title issues both calls. -/
theorem c1_witness :
    ServiceCall.updateNoteTitle "n1"
        (extractedTitle { html := "h", text := "x", jsonStr := "j", docTitle := some "A" }) ∈
      (debouncedFlush ""
          (some { html := "h", text := "x", jsonStr := "j", docTitle := some "A" }) "n1"
          none).calls ↔
      extractedTitle { html := "h", text := "x", jsonStr := "j", docTitle := some "A" } ≠ "" :=
  (c1_flush_calls ""
      { html := "h", text := "x", jsonStr := "j", docTitle := some "A" } "n1" none
      (by decide)).1

/-- Claim C8: in a flush that issues a title update, `titleRef` is
overwritten with the new title before the request is awaited — the
resulting `titleRef` is the new title for every outcome `fail` of the
awaited requests.  Consequently any later flush whose editor yields that
same title issues no `updateNoteTitle` call at all: the failed title
change is not resent by the hook. -/
theorem c8_failed_title_not_resent (titleRef : String) (e1 : EditorModel) (noteId : String)
    (fail : Option ErrKind) (hid : idTruthy noteId = true)
    (hne : extractedTitle e1 ≠ titleRef) :
    (debouncedFlush titleRef (some e1) noteId fail).titleRef = extractedTitle e1 ∧
    ServiceCall.updateNoteTitle noteId (extractedTitle e1) ∈
      (debouncedFlush titleRef (some e1) noteId fail).calls ∧
    ∀ (e2 : EditorModel) (noteId2 : String) (fail2 : Option ErrKind) (nid t : String),
      extractedTitle e2 = extractedTitle e1 →
        ServiceCall.updateNoteTitle nid t ∉
          (debouncedFlush (extractedTitle e1) (some e2) noteId2 fail2).calls := by
  refine ⟨?_, ?_, ?_⟩
  · simp [debouncedFlush, hid, hne]
  · simp [debouncedFlush, hid, hne]
  · intro e2 noteId2 fail2 nid t he2
    by_cases h2 : idTruthy noteId2 = true
    · simp [debouncedFlush, h2, he2]
    · simp [debouncedFlush, h2]

/-- Claim C8 witness: after a failed title update, a second flush extracting
the same title issues no title call. -/
theorem c8_witness :
    ServiceCall.updateNoteTitle "n1" "A" ∉
      (debouncedFlush
          (extractedTitle { html := "h", text := "x", jsonStr := "j", docTitle := some "A" })
          (some { html := "h2", text := "y", jsonStr := "k", docTitle := some "A" }) "n1"
          none).calls :=
  (c8_failed_title_not_resent ""
      { html := "h", text := "x", jsonStr := "j", docTitle := some "A" } "n1"
      (some .otherError) (by decide) (by decide)).2.2
    { html := "h2", text := "y", jsonStr := "k", docTitle := some "A" } "n1" none "n1" "A"
    (by decide)

/-- Unfolding: with no event left, a still-pending timer eventually fires. -/
theorem debounceFires_nil (wait : Nat) (pending : Option (Nat × FlushArgs)) :
    debounceFires wait pending [] = pending.toList := by
  cases pending <;> rfl

/-- Unfolding: with no pending timer, an event only updates the timer. -/
theorem debounceFires_cons_none (wait : Nat) (e : DebEvent) (l : List DebEvent) :
    debounceFires wait none (e :: l) = debounceFires wait (applyDebEvent wait none e) l :=
  rfl

/-- Unfolding: a pending timer due before the next event fires first;
otherwise the event updates it. -/
theorem debounceFires_cons_some (wait f : Nat) (args : FlushArgs) (e : DebEvent)
    (l : List DebEvent) :
    debounceFires wait (some (f, args)) (e :: l) =
      if f ≤ e.time then
        (f, args) :: debounceFires wait (applyDebEvent wait none e) l
      else
        debounceFires wait (applyDebEvent wait (some (f, args)) e) l :=
  rfl

/-- The service calls and the `titleRef` produced by a flush do not depend on
whether its awaited requests fail (`titleRef` is written before the await;
the catch block neither retries nor undoes). -/
theorem debouncedFlush_const (titleRef : String) (ed : Option EditorModel) (noteId : String)
    (k1 k2 : Option ErrKind) :
    (debouncedFlush titleRef ed noteId k1).calls = (debouncedFlush titleRef ed noteId k2).calls ∧
    (debouncedFlush titleRef ed noteId k1).titleRef =
      (debouncedFlush titleRef ed noteId k2).titleRef := by
  cases ed
  · exact ⟨rfl, rfl⟩
  · by_cases h : idTruthy noteId = true <;> simp [debouncedFlush, h]

/-- Claim C2: (1) for a burst of calls whose times are monotone and all lie
within one debounce window of the first call, the debounce produces exactly
one fire, on the trailing edge — `wait` ms after the last call — carrying
the arguments (in particular the editor) of the last call; (2) the service
calls issued over any sequence of fires are identical for every failure
oracle: a failed flush is never retried. -/
theorem c2_debounce_trailing_edge :
    (∀ (wait t0 : Nat) (a0 : FlushArgs) (rest : List (Nat × FlushArgs)),
      List.Pairwise (fun p q : Nat × FlushArgs => p.1 ≤ q.1) ((t0, a0) :: rest) →
      (∀ p ∈ rest, p.1 < t0 + wait) →
      debounceFires wait none (((t0, a0) :: rest).map (fun p => DebEvent.call p.1 p.2)) =
        [((((t0, a0) :: rest).getLast (List.cons_ne_nil _ _)).1 + wait,
          (((t0, a0) :: rest).getLast (List.cons_ne_nil _ _)).2)]) ∧
    ∀ (titleRef : String) (idx : Nat) (f1 f2 : Nat → Option ErrKind)
        (fires : List (Nat × FlushArgs)),
      timedFlushCalls titleRef idx f1 fires = timedFlushCalls titleRef idx f2 fires := by
  constructor
  · intro wait t0 a0 rest
    induction rest generalizing t0 a0 with
    | nil =>
      intro _ _
      simp [debounceFires_cons_none, applyDebEvent, debounceFires_nil]
    | cons p rest ih =>
      obtain ⟨t1, a1⟩ := p
      intro hpw hwin
      have ht01 : t0 ≤ t1 := (List.pairwise_cons.mp hpw).1 (t1, a1) (by simp)
      have hlt1 : t1 < t0 + wait := hwin (t1, a1) (by simp)
      have htail := (List.pairwise_cons.mp hpw).2
      have hwin2 : ∀ p ∈ rest, p.1 < t1 + wait := by
        intro p hp
        have := hwin p (by simp [hp])
        omega
      have hres := ih t1 a1 htail hwin2
      simp only [List.map_cons] at hres ⊢
      rw [debounceFires_cons_none] at hres ⊢
      simp only [applyDebEvent] at hres ⊢
      rw [debounceFires_cons_some,
        if_neg (by simp only [DebEvent.time]; omega)]
      simp only [applyDebEvent]
      rw [hres]
      simp [List.getLast_cons]
  · intro titleRef idx f1 f2 fires
    induction fires generalizing titleRef idx with
    | nil => rfl
    | cons q rest ih =>
      obtain ⟨f, args⟩ := q
      have hconst :=
        debouncedFlush_const titleRef (some args.editor) args.noteId (f1 idx) (f2 idx)
      simp only [timedFlushCalls]
      rw [hconst.1, hconst.2, ih]

/-- Claim C2 witness: two calls 500 ms apart with a 2000 ms window produce
exactly the single trailing fire at 2500 ms with the second call's
arguments. -/
theorem c2_witness :
    debounceFires 2000 none
        ([((0 : Nat), ({ editor := { html := "h", text := "x", jsonStr := "j", docTitle := some "A" }, noteId := "n1" } : FlushArgs)), ((500 : Nat), ({ editor := { html := "h2", text := "y", jsonStr := "k", docTitle := some "B" }, noteId := "n1" } : FlushArgs))].map
          (fun p => DebEvent.call p.1 p.2)) =
      [((2500 : Nat), ({ editor := { html := "h2", text := "y", jsonStr := "k", docTitle := some "B" }, noteId := "n1" } : FlushArgs))] := by
  have h := c2_debounce_trailing_edge.1 2000 0
    ({ editor := { html := "h", text := "x", jsonStr := "j", docTitle := some "A" }, noteId := "n1" } : FlushArgs)
    [((500 : Nat), ({ editor := { html := "h2", text := "y", jsonStr := "k", docTitle := some "B" }, noteId := "n1" } : FlushArgs))]
    (by decide) (by decide)
  simpa using h

/-- When the timeline ends with a `cancel` at time `T` and every earlier
event is at a time `≤ T`, every fire of the debounce is due at a time
`≤ T`: the pending trailing invocation, if any, is cancelled. -/
theorem debounceFires_time_le (wait T : Nat) :
    ∀ (evs : List DebEvent) (pending : Option (Nat × FlushArgs)),
      (∀ e ∈ evs, e.time ≤ T) →
      ∀ q ∈ debounceFires wait pending (evs ++ [DebEvent.cancel T]), q.1 ≤ T := by
  intro evs
  induction evs with
  | nil =>
    intro pending _ q hq
    rcases pending with _ | ⟨f, args⟩
    · rw [List.nil_append, debounceFires_cons_none] at hq
      simp [applyDebEvent, debounceFires_nil] at hq
    · rw [List.nil_append, debounceFires_cons_some] at hq
      by_cases hf : f ≤ (DebEvent.cancel T).time
      · rw [if_pos hf] at hq
        simp only [applyDebEvent, debounceFires_nil, Option.toList_none] at hq
        rcases List.mem_singleton.mp hq with rfl
        simpa [DebEvent.time] using hf
      · rw [if_neg hf] at hq
        simp [applyDebEvent, debounceFires_nil] at hq
  | cons e evs ih =>
    intro pending hle q hq
    rcases pending with _ | ⟨f, args⟩
    · rw [List.cons_append, debounceFires_cons_none] at hq
      exact ih _ (fun e2 he2 => hle e2 (List.mem_cons_of_mem _ he2)) q hq
    · rw [List.cons_append, debounceFires_cons_some] at hq
      by_cases hf : f ≤ e.time
      · rw [if_pos hf] at hq
        rcases List.mem_cons.mp hq with rfl | hq2
        · exact le_trans hf (hle e (by simp))
        · exact ih _ (fun e2 he2 => hle e2 (by simp [he2])) q hq2
      · rw [if_neg hf] at hq
        exact ih _ (fun e2 he2 => hle e2 (by simp [he2])) q hq

/-- Every timed service call of a flush run is tagged with the due time of
one of the fires it came from. -/
theorem timedFlushCalls_time (titleRef : String) (idx : Nat) (fail : Nat → Option ErrKind)
    (fires : List (Nat × FlushArgs)) :
    ∀ p ∈ timedFlushCalls titleRef idx fail fires, ∃ q ∈ fires, p.1 = q.1 := by
  induction fires generalizing titleRef idx with
  | nil =>
    intro p hp
    simp [timedFlushCalls] at hp
  | cons q rest ih =>
    obtain ⟨f, args⟩ := q
    intro p hp
    simp only [timedFlushCalls, List.mem_append] at hp
    rcases hp with hp | hp
    · rcases List.mem_map.mp hp with ⟨c, _, rfl⟩
      exact ⟨(f, args), by simp, rfl⟩
    · obtain ⟨q2, hq2, he⟩ := ih _ _ p hp
      exact ⟨q2, by simp [hq2], he⟩

/-- Claim C3: if the component unmounts at time `tu` (the cleanup runs
`debouncedUpdate.current.cancel()`) and all prior interaction with the
debounced function happened at times `≤ tu`, then every `NoteService` call
the hook ever issues is issued at a time `≤ tu`: nothing is sent after
unmount. -/
theorem c3_unmount_cancels (wait : Nat) (evs : List DebEvent) (tu : Nat) (titleRef : String)
    (fail : Nat → Option ErrKind) (hle : ∀ e ∈ evs, e.time ≤ tu) :
    ∀ p ∈ timedFlushCalls titleRef 0 fail
        (debounceFires wait none (evs ++ [DebEvent.cancel tu])), p.1 ≤ tu := by
  intro p hp
  obtain ⟨q, hq, hpq⟩ := timedFlushCalls_time titleRef 0 fail _ p hp
  rw [hpq]
  exact debounceFires_time_le wait tu evs none hle q hq

/-- Claim C3 witness: on a concrete timeline (calls at 0 ms and 2500 ms,
unmount at 9999 ms) the title update fired at 2000 ms is among the issued
calls, and its time is within the mounted lifetime. -/
theorem c3_witness :
    ((2000 : Nat), ServiceCall.updateNoteTitle "n1" "A") ∈
      timedFlushCalls "" 0 (fun _ => none)
        (debounceFires 2000 none
          ([DebEvent.call 0 { editor := { html := "h", text := "x", jsonStr := "j", docTitle := some "A" }, noteId := "n1" }, DebEvent.call 2500 { editor := { html := "h2", text := "y", jsonStr := "k", docTitle := some "B" }, noteId := "n1" }] ++ [DebEvent.cancel 9999])) ∧
    (2000 : Nat) ≤ 9999 :=
  ⟨by decide,
    c3_unmount_cancels 2000
      [DebEvent.call 0 { editor := { html := "h", text := "x", jsonStr := "j", docTitle := some "A" }, noteId := "n1" }, DebEvent.call 2500 { editor := { html := "h2", text := "y", jsonStr := "k", docTitle := some "B" }, noteId := "n1" }]
      9999 "" (fun _ => none) (by decide)
      ((2000 : Nat), ServiceCall.updateNoteTitle "n1" "A") (by decide)⟩

/-- Claim C4 counterexample: the debounced flush of `useUpdateNote`, on a
failing update (valid editor, truthy `noteId`), stores the wrapped error —
but its effect trace contains no rethrow: the catch block only calls
`setError` and `console.error`.  The claim's requirement that every listed
action rethrows the error on failure is therefore false at this input. -/
theorem c4_counterexample :
    (debouncedFlushEffects "" (some { html := "h", text := "x", jsonStr := "j", docTitle := some "A" }) "n1" (some .otherError)).all
        (fun ef => match ef with | HookEff.rethrow _ => false | _ => true) = true ∧
    HookEff.setError "Failed to update note" ∈
      debouncedFlushEffects "" (some { html := "h", text := "x", jsonStr := "j", docTitle := some "A" }) "n1" (some .otherError) := by
  decide

/-- The loading/error/rethrow pattern shared by the rethrowing hook actions,
as a predicate on the action's effect trace for each failure outcome: the
trace opens with `setIsLoading(true); setError(null)`; on success it ends
with the `finally` (`setIsLoading(false)`) and contains neither `setError`
nor a rethrow; on failure it stores the wrapped error, the `finally` runs,
and the wrapped error is rethrown last. -/
def followsRethrowPattern (eff : Option ErrKind → List HookEff) (dflt : String) : Prop :=
  (∀ fail, (eff fail).take 2 = [HookEff.setLoading true, HookEff.clearError]) ∧
  ((eff none).getLast? = some (HookEff.setLoading false) ∧
    (∀ m, HookEff.setError m ∉ eff none) ∧
    ∀ m, HookEff.rethrow m ∉ eff none) ∧
  ∀ k, HookEff.setError (wrapMsg dflt k) ∈ eff (some k) ∧
    (eff (some k)).getLast? = some (HookEff.rethrow (wrapMsg dflt k)) ∧
    (eff (some k)).dropLast.getLast? = some (HookEff.setLoading false)

/-- Claim C4 (amended): every hook action of the note hooks module opens with
`setIsLoading(true); setError(null)`, issues its service call(s), stores
the wrapped error on failure and always runs its `finally`
(`setIsLoading(false)`); the six promise-returning actions (`createNote`,
`updateNoteContent`, `deleteNote`, `makeNotePrivate`, `updatePermissions`,
`duplicateNote` — the latter at each of its up-to-three steps) rethrow the
wrapped error, while the debounced flush of `useUpdateNote` stores the
error but never rethrows. -/
theorem c4_hook_pattern :
    (∀ (t : String) (g : NoteAccess) (o : String),
      followsRethrowPattern (createNoteEffects t g o) "Failed to create note") ∧
    (∀ (n : String) (fs pt fj : Option String),
      followsRethrowPattern (updateNoteContentEffects n fs pt fj)
        "Failed to update note content") ∧
    (∀ nid : String, followsRethrowPattern (deleteNoteEffects nid) "Failed to delete note") ∧
    (∀ nid : String,
      followsRethrowPattern (makeNotePrivateEffects nid) "Failed to make note private") ∧
    (∀ (nid org : String) (adm : Bool),
      followsRethrowPattern (updatePermissionsEffects nid org adm)
        "Failed to update note permissions") ∧
    (∀ (nid slug : String) (orig : NoteWithContentM) (newId : String),
      followsRethrowPattern
        (fun fail => duplicateNoteEffects nid slug orig newId (fail.map (fun k => ((0 : Nat), k))))
        "Failed to duplicate note" ∧
      followsRethrowPattern
        (fun fail => duplicateNoteEffects nid slug orig newId (fail.map (fun k => ((1 : Nat), k))))
        "Failed to duplicate note" ∧
      ((strTruthy orig.content || strTruthy orig.contentJson) = true →
        followsRethrowPattern
          (fun fail =>
            duplicateNoteEffects nid slug orig newId (fail.map (fun k => ((2 : Nat), k))))
          "Failed to duplicate note")) ∧
    ∀ (titleRef : String) (e : EditorModel) (noteId : String),
      idTruthy noteId = true →
        (∀ fail, (debouncedFlushEffects titleRef (some e) noteId fail).take 2 =
          [HookEff.setLoading true, HookEff.clearError]) ∧
        (∀ fail, (debouncedFlushEffects titleRef (some e) noteId fail).getLast? =
          some (HookEff.setLoading false)) ∧
        (∀ (m : String) (fail : Option ErrKind),
          HookEff.rethrow m ∉ debouncedFlushEffects titleRef (some e) noteId fail) ∧
        (∀ m : String, HookEff.setError m ∉ debouncedFlushEffects titleRef (some e) noteId none) ∧
        ∀ k, HookEff.setError (wrapMsg "Failed to update note" k) ∈
          debouncedFlushEffects titleRef (some e) noteId (some k) := by
  refine ⟨?_, ?_, ?_, ?_, ?_, ?_, ?_⟩
  · intro t g o
    refine ⟨fun fail => ?_, ⟨rfl, ?_, ?_⟩, fun k => ⟨?_, rfl, rfl⟩⟩
    · cases fail <;> rfl
    · intro m
      simp [createNoteEffects]
    · intro m
      simp [createNoteEffects]
    · simp [createNoteEffects, throwTail]
  · intro n fs pt fj
    refine ⟨fun fail => ?_, ⟨rfl, ?_, ?_⟩, fun k => ⟨?_, rfl, rfl⟩⟩
    · cases fail <;> rfl
    · intro m
      simp [updateNoteContentEffects]
    · intro m
      simp [updateNoteContentEffects]
    · simp [updateNoteContentEffects, throwTail]
  · intro nid
    refine ⟨fun fail => ?_, ⟨rfl, ?_, ?_⟩, fun k => ⟨?_, rfl, rfl⟩⟩
    · cases fail <;> rfl
    · intro m
      simp [deleteNoteEffects]
    · intro m
      simp [deleteNoteEffects]
    · simp [deleteNoteEffects, throwTail]
  · intro nid
    refine ⟨fun fail => ?_, ⟨rfl, ?_, ?_⟩, fun k => ⟨?_, rfl, rfl⟩⟩
    · cases fail <;> rfl
    · intro m
      simp [makeNotePrivateEffects]
    · intro m
      simp [makeNotePrivateEffects]
    · simp [makeNotePrivateEffects, throwTail]
  · intro nid org adm
    refine ⟨fun fail => ?_, ⟨rfl, ?_, ?_⟩, fun k => ⟨?_, rfl, rfl⟩⟩
    · cases fail <;> rfl
    · intro m
      simp [updatePermissionsEffects]
    · intro m
      simp [updatePermissionsEffects]
    · simp [updatePermissionsEffects, throwTail]
  · intro nid slug orig newId
    refine ⟨⟨fun fail => ?_, ⟨?_, ?_, ?_⟩, fun k => ⟨?_, rfl, rfl⟩⟩,
      ⟨fun fail => ?_, ⟨?_, ?_, ?_⟩, fun k => ⟨?_, rfl, rfl⟩⟩,
      fun hc => ⟨fun fail => ?_, ⟨?_, ?_, ?_⟩, fun k => ⟨?_, ?_, ?_⟩⟩⟩
    · cases fail <;> rfl
    · cases hco : (strTruthy orig.content || strTruthy orig.contentJson) <;>
        simp [duplicateNoteEffects, hco]
    · intro m
      cases hco : (strTruthy orig.content || strTruthy orig.contentJson) <;>
        simp [duplicateNoteEffects, hco]
    · intro m
      cases hco : (strTruthy orig.content || strTruthy orig.contentJson) <;>
        simp [duplicateNoteEffects, hco]
    · simp [duplicateNoteEffects, throwTail]
    · cases fail <;> rfl
    · cases hco : (strTruthy orig.content || strTruthy orig.contentJson) <;>
        simp [duplicateNoteEffects, hco]
    · intro m
      cases hco : (strTruthy orig.content || strTruthy orig.contentJson) <;>
        simp [duplicateNoteEffects, hco]
    · intro m
      cases hco : (strTruthy orig.content || strTruthy orig.contentJson) <;>
        simp [duplicateNoteEffects, hco]
    · simp [duplicateNoteEffects, throwTail]
    · cases fail <;> rfl
    · simp [duplicateNoteEffects, hc]
    · intro m
      simp [duplicateNoteEffects, hc]
    · intro m
      simp [duplicateNoteEffects, hc]
    · simp [duplicateNoteEffects, hc, throwTail]
    · simp [duplicateNoteEffects, hc, throwTail]
    · simp [duplicateNoteEffects, hc, throwTail]
  · intro titleRef e noteId hid
    refine ⟨fun fail => ?_, fun fail => ?_, ?_, ?_, fun k => ?_⟩
    · cases fail <;> simp [debouncedFlushEffects, hid]
    · cases fail <;>
        simp [debouncedFlushEffects, hid, List.getLast?_cons, List.getLastD_concat]
    · intro m fail
      cases fail <;> simp [debouncedFlushEffects, hid]
    · intro m
      simp [debouncedFlushEffects, hid]
    · simp [debouncedFlushEffects, hid]

/-- Claim C4 witness: for a concrete failing flush with a truthy `noteId`,
the debounced update's trace contains no rethrow of the wrapped error. -/
theorem c4_witness :
    idTruthy "n1" = true ∧
    HookEff.rethrow "Failed to update note" ∉
      debouncedFlushEffects "" (some { html := "h", text := "x", jsonStr := "j", docTitle := some "A" }) "n1" (some ErrKind.otherError) :=
  ⟨by decide,
    (c4_hook_pattern.2.2.2.2.2.2 ""
        { html := "h", text := "x", jsonStr := "j", docTitle := some "A" } "n1"
        (by decide)).2.2.1 "Failed to update note" (some ErrKind.otherError)⟩

/-- Claim C5 witness: the membership characterization at a concrete
one-element workspace list. -/
theorem c5_witness :
    ({ id := 1, title := "", access := NoteAccess.WORKSPACE, updatedDate := 5 } : Note) ∈
      filteredAndSortedNotes
        [{ id := 1, title := "", access := NoteAccess.WORKSPACE, updatedDate := 5 }]
        .workspace ↔
      ({ id := 1, title := "", access := NoteAccess.WORKSPACE, updatedDate := 5 } : Note) ∈
        [({ id := 1, title := "", access := NoteAccess.WORKSPACE, updatedDate := 5 } : Note)] ∧
        notePassesFilter .workspace
          { id := 1, title := "", access := NoteAccess.WORKSPACE, updatedDate := 5 } = true :=
  (c5_noteList_partition.2.2
      [{ id := 1, title := "", access := NoteAccess.WORKSPACE, updatedDate := 5 }]
      .workspace).1
    { id := 1, title := "", access := NoteAccess.WORKSPACE, updatedDate := 5 }
